import Mathlib

/-!
Shallow embedding of `src/system/OS_info/os_info_windows.cpp` from the
infoware fork (Windows OS-information backend).

External system state (kernel version query, registry values, WMI service
responses, and the legacy resolver defined outside this file) is modelled as
an explicit environment record; each C++ function becomes a pure Lean
function of that environment.  Strings are `List Char` so that raw registry
bytes (which may include an embedded or trailing NUL) are representable.
-/

namespace Infoware

/-- The NUL byte, as a character.  Registry `REG_SZ` data may carry it. -/
def nulChar : Char := Char.ofNat 0

/-- The fields of `RTL_OSVERSIONINFOW` filled by `RtlGetVersion`. -/
structure KernelVersion where
  dwMajorVersion : Nat
  dwMinorVersion : Nat
  dwBuildNumber : Nat
deriving DecidableEq

/-- State of the `HKLM\Software\Microsoft\Windows NT\CurrentVersion` registry
key as seen by `build_number` and `version_name_reg`:
 * `openOk`       — whether `RegOpenKeyExA` succeeds;
 * `ubr`          — the numeric `UBR` value, when present;
 * `buildLabEx`   — the raw bytes of the `BuildLabEx` string value, when
                    present (size query and fill query succeed);
 * `productName`  — the raw bytes of the `ProductName` string value, when
                    present.  `RegQueryValueExA` reports the stored size,
                    which for `REG_SZ` data may or may not include a trailing
                    NUL; the raw byte lists here are exactly what is stored. -/
structure RegistryEnv where
  openOk : Bool
  ubr : Option Nat
  buildLabEx : Option (List Char)
  productName : Option (List Char)
deriving DecidableEq

/-- Outcome of each fallible step of `version_name_wmi`, plus the `Name`
strings of the records the WMI query iterator yields (already narrowed from
wide strings):
 * `comInitOk`  — `CoInitializeEx` succeeds (directly, or after the
                  `RPC_E_CHANGED_MODE` retry with `COINIT_APARTMENTTHREADED`);
 * `secOk`      — `CoInitializeSecurity` succeeds or returns `RPC_E_TOO_LATE`;
 * `locOk`      — `CoCreateInstance` for the `WbemLocator` succeeds;
 * `connectOk`  — `ConnectServer` to `ROOT\CIMV2` succeeds;
 * `proxyOk`    — `CoSetProxyBlanket` succeeds;
 * `execOk`     — `ExecQuery` succeeds;
 * `records`    — the record values drained from the query iterator before
                  `Next` reports no further result. -/
structure WmiEnv where
  comInitOk : Bool
  secOk : Bool
  locOk : Bool
  connectOk : Bool
  proxyOk : Bool
  execOk : Bool
  records : List (List Char)
deriving DecidableEq

/-- The whole external state read by one call of `iware::system::OS_info`:
 * `rtlGetVersion` — `some v` when `GetProcAddress` resolves `RtlGetVersion`
                     and the call fills `v`; `none` when the function cannot
                     be resolved (the version info stays zero-initialised);
 * `reg`           — the registry key state;
 * `legacyName`    — the string returned by the legacy resolver
                     `version_name()` (see below). -/
structure Env where
  rtlGetVersion : Option KernelVersion
  reg : RegistryEnv
  legacyName : List Char
deriving DecidableEq

/-- Model of `iware::system::OS_info_t`.  The struct itself is declared in
`include/infoware/system.hpp` (not part of this file); field names follow the
spec's data model (§3), field order follows the aggregate initialiser in
`OS_info`: family name, display name, major, minor, kernel build, patch. -/
structure OS_info_t where
  name : List Char
  full_name : List Char
  major_version : Nat
  minor_version : Nat
  build_number : Nat
  patch_number : Nat
deriving DecidableEq

/-! Section: string primitives used by the C++ code -/

/-- A C string stops at the first NUL: the bytes `strtok_r` actually sees. -/
def cstr (s : List Char) : List Char := s.takeWhile (fun c => c ≠ nulChar)

/-- Model of `strtok_r` tokenisation with delimiter set "." : maximal nonempty runs of
non-delimiter characters; empty tokens never occur (consecutive, leading and
trailing delimiters are skipped).  Accumulator holds the current token
reversed. -/
def strtokAcc : List Char → List Char → List (List Char)
  | [], acc => if acc.isEmpty then [] else [acc.reverse]
  | c :: cs, acc =>
    if c = '.' then
      if acc.isEmpty then strtokAcc cs [] else acc.reverse :: strtokAcc cs []
    else strtokAcc cs (c :: acc)

/-- All tokens `strtok_r(s, ".", &ctx)` produces, in order. -/
def strtokTokens (s : List Char) : List (List Char) := strtokAcc s []

/-- C-locale `isspace`: space, `\t`, `\n`, vertical tab (0x0B), form feed
(0x0C), `\r`. -/
def isCSpace (c : Char) : Bool :=
  (c = ' ') || (c = '\t') || (c = '\n') || (c = Char.ofNat 11) ||
  (c = Char.ofNat 12) || (c = '\r')

/-- Numeric value of the maximal leading run of decimal digits (0 when the
run is empty), as an unbounded natural: `strtoul` detects overflow while
accumulating, which is equivalent to comparing this value against the range
limit afterwards. -/
def leadingDigitsVal (s : List Char) : Nat :=
  (s.takeWhile Char.isDigit).foldl (fun a c => a * 10 + (c.toNat - 48)) 0

/-- Model of `std::strtoul(s, nullptr, 10)` on Windows (32-bit
`unsigned long`): skip leading C-locale whitespace and an optional single
sign, parse the maximal leading run of decimal digits (no digits — no
conversion — yields 0), return `ULONG_MAX` when the magnitude is out of
range, and for a leading minus sign negate the converted value in the
unsigned return type, i.e. modulo 2^32. -/
def strtoul10 (s : List Char) : Nat :=
  match s.dropWhile isCSpace with
  | '-' :: rest =>
    if 2 ^ 32 - 1 < leadingDigitsVal rest then 2 ^ 32 - 1
    else (2 ^ 32 - leadingDigitsVal rest) % 2 ^ 32
  | '+' :: rest =>
    if 2 ^ 32 - 1 < leadingDigitsVal rest then 2 ^ 32 - 1
    else leadingDigitsVal rest
  | rest =>
    if 2 ^ 32 - 1 < leadingDigitsVal rest then 2 ^ 32 - 1
    else leadingDigitsVal rest

/-- Whether `pat` is a prefix of `s` (character-wise comparison). -/
def startsWith : List Char → List Char → Bool
  | [], _ => true
  | _ :: _, [] => false
  | p :: ps, c :: cs => p = c && startsWith ps cs

/-- Model of `std::string::find(pat)` on haystack `s`: index of the first occurrence
of `pat` as a contiguous substring, `none` for `npos`. -/
def findSub (pat : List Char) : List Char → Option Nat
  | [] => if startsWith pat [] then some 0 else none
  | c :: rest =>
    if startsWith pat (c :: rest) then some 0
    else (findSub pat rest).map (fun i => i + 1)

/-- Model of `std::string::find(ch)`: index of the first occurrence of character
`ch`, `none` for `npos`. -/
def findChar (ch : Char) (s : List Char) : Option Nat :=
  findSub [ch] s

/-! Section: the resolver `version_name_wmi` -/

/-- The resources `version_name_wmi` acquires. -/
inductive Res where
  | com
  | locator
  | services
  | iterator
  | record
  | variant
deriving DecidableEq

/-- Acquisition / release events, in chronological order of a run. -/
inductive Ev where
  | acq : Res → Ev
  | rel : Res → Ev
deriving DecidableEq

/-- The `while(query_iterator)` loop of `version_name_wmi`: for each record
yielded by `Next`, acquire the per-record object and the `VARIANT` box, let
`ret` become that record's narrowed `Name` string, then (scope exit of the
loop body, destructors in reverse order) clear the variant and release the
record object.  Returns the final `ret` together with the events of the whole
drain. -/
def wmiLoop : List (List Char) → List Char → List Char × List Ev
  | [], ret => (ret, [])
  | name :: rest, _ =>
    let next := wmiLoop rest name
    (next.1, Ev.acq Res.record :: Ev.acq Res.variant ::
             Ev.rel Res.variant :: Ev.rel Res.record :: next.2)

/-- The last step of `version_name_wmi`: `ret.find('|')`, and when found,
`ret.resize(sep)` — truncation at the first separator. -/
def wmiTruncate (ret : List Char) : List Char :=
  match findChar '|' ret with
  | some sep => ret.take sep
  | none => ret

/-- Model of `version_name_wmi()`, instrumented: result string plus the chronological
acquisition/release trace of its run.  Each early `return {}` runs the
destructors of everything acquired so far, in reverse declaration order
(`query_iterator`, `wbem_services`, `wbem_loc`, then the
`com_uninitialiser` scope guard). -/
def version_name_wmi_exec (w : WmiEnv) : List Char × List Ev :=
  if w.comInitOk = false then
    ([], [])
  else if w.secOk = false then
    ([], [Ev.acq Res.com, Ev.rel Res.com])
  else if w.locOk = false then
    ([], [Ev.acq Res.com, Ev.rel Res.com])
  else if w.connectOk = false then
    ([], [Ev.acq Res.com, Ev.acq Res.locator,
          Ev.rel Res.locator, Ev.rel Res.com])
  else if w.proxyOk = false then
    ([], [Ev.acq Res.com, Ev.acq Res.locator, Ev.acq Res.services,
          Ev.rel Res.services, Ev.rel Res.locator, Ev.rel Res.com])
  else if w.execOk = false then
    ([], [Ev.acq Res.com, Ev.acq Res.locator, Ev.acq Res.services,
          Ev.rel Res.services, Ev.rel Res.locator, Ev.rel Res.com])
  else
    (wmiTruncate (wmiLoop w.records []).1,
      [Ev.acq Res.com, Ev.acq Res.locator, Ev.acq Res.services,
       Ev.acq Res.iterator] ++ (wmiLoop w.records []).2 ++
      [Ev.rel Res.iterator, Ev.rel Res.services,
       Ev.rel Res.locator, Ev.rel Res.com])

/-- The string `version_name_wmi()` returns. -/
def version_name_wmi (w : WmiEnv) : List Char := (version_name_wmi_exec w).1

/-- Number of acquisitions of resource `r` in a trace. -/
def acqCount (evs : List Ev) (r : Res) : Nat :=
  (evs.filter (fun e => e = Ev.acq r)).length

/-- Number of releases of resource `r` in a trace. -/
def relCount (evs : List Ev) (r : Res) : Nat :=
  (evs.filter (fun e => e = Ev.rel r)).length

/-! Section: the resolver `build_number` -/

/-- The first `hkey_closer` scope guard of `build_number`:
`if (hkey) RegCloseKey(hkey);` — number of `RegCloseKey` calls it makes given
the value of `hkey` at scope exit. -/
def hkeyGuardOne (hkey : Nat) : Nat := if hkey ≠ 0 then 1 else 0

/-- Model of `build_number()`, instrumented: result plus the number of `RegCloseKey`
calls performed on the taken exit path.  The source declares TWO scope guards
named `hkey_closer` in the same scope: the first, before `RegOpenKeyExA`,
closes `hkey` when non-null; the second, after a successful open, closes it
unconditionally.  At every return after a successful open both guards run
(reverse declaration order: second, then first), and `hkey` is still non-null
when the first one runs.  The `BuildLabEx` fallback's size query and fill
query are modelled as one lookup (the fill succeeds whenever the size query
does). -/
def build_number_exec (r : RegistryEnv) : Nat × Nat :=
  if r.openOk = false then
    (0, hkeyGuardOne 0)
  else
    -- after a successful open `hkey` is a non-null handle (written 1 here);
    -- each exit runs the second guard (one close) and then the first
    -- (`hkeyGuardOne`, a second close, since `hkey` is still non-null)
    match r.ubr with
    | some u => (u, 1 + hkeyGuardOne 1)
    | none =>
      match r.buildLabEx with
      | none => (0, 1 + hkeyGuardOne 1)
      | some data =>
        match strtokTokens (cstr data) with
        | _ :: t2 :: _ => (strtoul10 t2, 1 + hkeyGuardOne 1)
        | _ => (0, 1 + hkeyGuardOne 1)

/-- The value `build_number()` returns. -/
def build_number (r : RegistryEnv) : Nat := (build_number_exec r).1

/-- Number of `RegCloseKey` calls one run of `build_number()` makes. -/
def build_number_closes (r : RegistryEnv) : Nat := (build_number_exec r).2

/-! Section: the resolver `version_name_reg` -/

/-- Model of `version_name_reg()`: open the `CurrentVersion` key, query `ProductName`
once for its stored size, allocate a string of exactly that size, query again
to fill it.  The result is therefore the raw stored bytes — including a
trailing NUL when one is stored, since the reported size counts it. -/
def version_name_reg (r : RegistryEnv) : List Char :=
  if r.openOk = false then []
  else
    match r.productName with
    | none => []
    | some data => data

/-! Section: the aggregator `OS_info` -/

/-- Modelled from the spec: `version_name()` — the legacy version-name
resolver (§4.1), declared in a header and defined in another file of the
repository (not under `src/`).  Per the spec it takes no inputs and returns a
display string from the deprecated version API, empty on failure; it is
modelled as an environment-provided value. -/
def version_name (e : Env) : List Char := e.legacyName

/-- The version record after step 2 of the aggregator: `RTL_OSVERSIONINFOW`
is zero-initialised and filled by `RtlGetVersion` only when the function
pointer was resolved. -/
def resolvedVersion (e : Env) : KernelVersion :=
  match e.rtlGetVersion with
  | some v => v
  | none => { dwMajorVersion := 0, dwMinorVersion := 0, dwBuildNumber := 0 }

/-- The `// Fix for win11:` block of `OS_info`, applied to the name the
registry resolver produced: when major = 10, minor = 0 and build ≥ 22000,
find the first occurrence of `" 10"` in the name and overwrite the character
at that offset plus two with `'1'`. -/
def win11Fix (v : KernelVersion) (name : List Char) : List Char :=
  if v.dwMajorVersion = 10 ∧ v.dwMinorVersion = 0 ∧ 22000 ≤ v.dwBuildNumber then
    match findSub [' ', '1', '0'] name with
    | some pos => name.set (pos + 2) '1'
    | none => name
  else name

/-- Model of `iware::system::OS_info()`: resolve and call `RtlGetVersion`, route the
name resolution on the major version (below 10 → legacy `version_name`,
otherwise `version_name_reg` followed by the win11 fix), and assemble the
result with `build_number()`. -/
def OS_info (e : Env) : OS_info_t :=
  let v := resolvedVersion e
  let win_name :=
    if v.dwMajorVersion < 10 then version_name e
    else win11Fix v (version_name_reg e.reg)
  { name := "Windows NT".toList
    full_name := win_name
    major_version := v.dwMajorVersion
    minor_version := v.dwMinorVersion
    build_number := v.dwBuildNumber
    patch_number := build_number e.reg }

/-! Section: concrete environments used to evaluate the model on the spec's
test inputs -/

/-- Registry key state with `ProductName = "Windows 10 Pro"` (no other
values), paired with a resolved kernel version `10.0.build`. -/
def env10pro (build : Nat) : Env :=
  { rtlGetVersion := some { dwMajorVersion := 10, dwMinorVersion := 0, dwBuildNumber := build }
    reg := { openOk := true, ubr := none, buildLabEx := none
             productName := some "Windows 10 Pro".toList }
    legacyName := [] }

/-- Unresolvable `RtlGetVersion`, legacy resolver yields `"Legacy"`, registry
display name present and distinct. -/
def envUnresolved : Env :=
  { rtlGetVersion := none
    reg := { openOk := true, ubr := none, buildLabEx := none
             productName := some "RegName".toList }
    legacyName := "Legacy".toList }

/-- Resolved major version 6 (a pre-10 release) with both name sources
present and distinct. -/
def envLegacyRoute : Env :=
  { rtlGetVersion := some { dwMajorVersion := 6, dwMinorVersion := 1, dwBuildNumber := 7601 }
    reg := { openOk := true, ubr := none, buildLabEx := none
             productName := some "RegName".toList }
    legacyName := "Windows 7 Ultimate".toList }

/-- Resolved major version 10 with build below the win11 threshold. -/
def envRegRoute : Env :=
  { rtlGetVersion := some { dwMajorVersion := 10, dwMinorVersion := 0, dwBuildNumber := 14393 }
    reg := { openOk := true, ubr := none, buildLabEx := none
             productName := some "Windows Server 2016 Standard".toList }
    legacyName := "ShouldNotAppear".toList }

/-- Registry key with the `UBR` value 345 present and a fallback string that
would parse differently. -/
def regUbr345 : RegistryEnv :=
  { openOk := true, ubr := some 345
    buildLabEx := some "22000.99.amd64fre.co_release.210604-1628".toList
    productName := none }

/-- Registry key with `UBR` 345 (used for the close-count run). -/
def regUbrClose : RegistryEnv :=
  { openOk := true, ubr := some 345, buildLabEx := none, productName := none }

/-- Registry key without `UBR`, `BuildLabEx` being the spec's five-token
example. -/
def regLabExample : RegistryEnv :=
  { openOk := true, ubr := none
    buildLabEx := some "22000.1.amd64fre.co_release.210604-1628".toList
    productName := none }

/-- Registry key without `UBR`, `BuildLabEx` being a single token. -/
def regLabShort : RegistryEnv :=
  { openOk := true, ubr := none, buildLabEx := some "22000".toList
    productName := none }

/-- A WMI environment in which every step succeeds and the single record is
the spec's server example (name qualified after a `'|'` separator). -/
def wmiSepExample : WmiEnv :=
  { comInitOk := true, secOk := true, locOk := true, connectOk := true
    proxyOk := true, execOk := true
    records := ["Microsoft Windows Server 2019 Standard|C:\\Windows|\\Device\\Harddisk0".toList] }

/-- A WMI environment whose single record contains no separator. -/
def wmiNoSep : WmiEnv :=
  { comInitOk := true, secOk := true, locOk := true, connectOk := true
    proxyOk := true, execOk := true
    records := ["Windows 10 Home".toList] }

/-- Registry display name stored WITH its trailing NUL, version 10.0.22000
(so the win11 fix also fires on the NUL-terminated name). -/
def envNulName : Env :=
  { rtlGetVersion := some { dwMajorVersion := 10, dwMinorVersion := 0, dwBuildNumber := 22000 }
    reg := { openOk := true, ubr := none, buildLabEx := none
             productName := some ("Windows 10 Pro".toList ++ [nulChar]) }
    legacyName := [] }

/-- Environment for the determinism check. -/
def envDet : Env :=
  { rtlGetVersion := some { dwMajorVersion := 10, dwMinorVersion := 0, dwBuildNumber := 19045 }
    reg := { openOk := true, ubr := some 4046, buildLabEx := none
             productName := some "Windows 10 Pro".toList }
    legacyName := [] }

/-! Section: helper lemmas -/

/-- Lemma: `findSub` really locates an occurrence: the pattern is a prefix of the
haystack dropped at the reported position. -/
theorem findSub_startsWith {pat : List Char} :
    ∀ {s : List Char} {pos : Nat}, findSub pat s = some pos →
      startsWith pat (List.drop pos s) = true := by
  intro s
  induction s with
  | nil =>
    intro pos h
    rw [findSub] at h
    split at h
    · next hsw =>
      simp only [Option.some.injEq] at h
      subst h
      simpa using hsw
    · simp at h
  | cons c rest ih =>
    intro pos h
    rw [findSub] at h
    split at h
    · next hsw =>
      simp only [Option.some.injEq] at h
      subst h
      simpa using hsw
    · rcases hm : findSub pat rest with _ | p
      · rw [hm] at h
        simp at h
      · rw [hm] at h
        simp only [Option.map_some', Option.some.injEq] at h
        subst h
        simpa using ih hm

/-- A haystack beginning with the pattern `" 10"` decomposes accordingly. -/
theorem startsWith_win10 {l : List Char}
    (h : startsWith [' ', '1', '0'] l = true) :
    ∃ t, l = ' ' :: '1' :: '0' :: t := by
  cases l with
  | nil => simp [startsWith] at h
  | cons a l1 =>
    cases l1 with
    | nil => simp [startsWith] at h
    | cons b l2 =>
      cases l2 with
      | nil => simp [startsWith] at h
      | cons c t =>
        simp only [startsWith, Bool.and_eq_true, decide_eq_true_eq] at h
        obtain ⟨h1, h2, h3, -⟩ := h
        exact ⟨t, by rw [← h1, ← h2, ← h3]⟩

/-- Where `findSub` finds `" 10"`, the character two past the match offset is
`'0'`. -/
theorem findSub_win10_char {s : List Char} {pos : Nat}
    (h : findSub [' ', '1', '0'] s = some pos) : s[pos + 2]? = some '0' := by
  obtain ⟨t, ht⟩ := startsWith_win10 (findSub_startsWith h)
  have h2 : (s.drop pos)[2]? = some '0' := by rw [ht]; simp
  rwa [List.getElem?_drop s pos 2] at h2

/-- The aggregator's display name, as a function of the routing decision. -/
theorem OS_info_full_name (e : Env) :
    (OS_info e).full_name =
      if (resolvedVersion e).dwMajorVersion < 10 then version_name e
      else win11Fix (resolvedVersion e) (version_name_reg e.reg) := rfl

/-- Counting an acquisition event through a cons. -/
theorem acqCount_cons (e : Ev) (evs : List Ev) (r : Res) :
    acqCount (e :: evs) r = (if e = Ev.acq r then 1 else 0) + acqCount evs r := by
  by_cases h : e = Ev.acq r
  · simp [acqCount, List.filter_cons, h, Nat.add_comm]
  · simp [acqCount, List.filter_cons, h]

/-- Counting a release event through a cons. -/
theorem relCount_cons (e : Ev) (evs : List Ev) (r : Res) :
    relCount (e :: evs) r = (if e = Ev.rel r then 1 else 0) + relCount evs r := by
  by_cases h : e = Ev.rel r
  · simp [relCount, List.filter_cons, h, Nat.add_comm]
  · simp [relCount, List.filter_cons, h]

/-- Acquisition counts add over concatenation. -/
theorem acqCount_append (l1 l2 : List Ev) (r : Res) :
    acqCount (l1 ++ l2) r = acqCount l1 r + acqCount l2 r := by
  simp [acqCount, List.filter_append]

/-- Release counts add over concatenation. -/
theorem relCount_append (l1 l2 : List Ev) (r : Res) :
    relCount (l1 ++ l2) r = relCount l1 r + relCount l2 r := by
  simp [relCount, List.filter_append]

/-- The drain loop acquires and releases each resource equally often. -/
theorem wmiLoop_balanced (names : List (List Char)) (init : List Char) (r : Res) :
    acqCount (wmiLoop names init).2 r = relCount (wmiLoop names init).2 r := by
  induction names generalizing init with
  | nil => rfl
  | cons n rest ih =>
    simp only [wmiLoop, acqCount_cons, relCount_cons, ih n]
    cases r <;> simp

/-- The drain loop keeps the last record's value (or the initial value when
there are no records). -/
theorem wmiLoop_fst (names : List (List Char)) (init : List Char) :
    (wmiLoop names init).1 = names.getLast?.getD init := by
  induction names generalizing init with
  | nil => rfl
  | cons n rest ih =>
    rw [show (wmiLoop (n :: rest) init).1 = (wmiLoop rest n).1 from rfl, ih n]
    cases rest with
    | nil => rfl
    | cons m t =>
      rcases h : (m :: t).getLast? with _ | x
      · simp [List.getLast?_eq_none_iff] at h
      · simp [List.getLast?_cons_cons, h]

/-! Section: the claims -/

/-- C2: the spec says the build-identifier resolver closes the registry key
handle exactly once on every exit path after a successful open.  The source
instead declares two `hkey_closer` scope guards in the same scope (itself an
ill-formed redefinition); as written, both run at scope exit and the handle
is closed twice on every exit path that follows a successful open. -/
theorem c2_close_count (r : RegistryEnv) (h : r.openOk = true) :
    build_number_closes r = 2 ∧ build_number_closes r ≠ 1 := by
  have hc : build_number_closes r = 2 := by
    rw [build_number_closes, build_number_exec, if_neg (by simp [h])]
    split
    · rfl
    · split
      · rfl
      · split <;> rfl
  exact ⟨hc, by rw [hc]; simp⟩

/-- Witness for C2 at the concrete state where the key opens and `UBR` is
345: that run performs two `RegCloseKey` calls, not one. -/
theorem c2_close_count_witness :
    build_number_closes regUbrClose = 2 ∧ build_number_closes regUbrClose ≠ 1 :=
  c2_close_count regUbrClose rfl

/-- C6: with no `UBR` value present, `build_number` tokenises `BuildLabEx`
on `'.'`, discards the first token and returns the second parsed as an
unsigned base-10 integer; with fewer than two tokens it returns 0. -/
theorem c6_buildlabex_fallback (r : RegistryEnv) (s : List Char)
    (hopen : r.openOk = true) (hubr : r.ubr = none) (hlab : r.buildLabEx = some s) :
    (∀ t1 t2 rest, strtokTokens (cstr s) = t1 :: t2 :: rest →
      build_number r = strtoul10 t2) ∧
    ((strtokTokens (cstr s)).length < 2 → build_number r = 0) := by
  constructor
  · intro t1 t2 rest htok
    simp [build_number, build_number_exec, hopen, hubr, hlab, htok]
  · intro hlen
    simp only [build_number, build_number_exec, hopen, hubr, hlab]
    rcases htok : strtokTokens (cstr s) with _ | ⟨t1, _ | ⟨t2, rest⟩⟩
    · simp [htok]
    · simp [htok]
    · exfalso
      rw [htok] at hlen
      simp only [List.length_cons] at hlen
      omega

/-- Witness for C6 on the spec's two examples: the five-token build label
yields 1 (its second token), the single-token label yields 0. -/
theorem c6_buildlabex_fallback_witness :
    build_number regLabExample = 1 ∧ build_number regLabShort = 0 := by
  constructor
  · have h := (c6_buildlabex_fallback regLabExample
      "22000.1.amd64fre.co_release.210604-1628".toList rfl rfl rfl).1
      "22000".toList "1".toList
      ["amd64fre".toList, "co_release".toList, "210604-1628".toList] (by rfl)
    rw [h]
    decide
  · exact (c6_buildlabex_fallback regLabShort "22000".toList rfl rfl rfl).2 (by decide)

/-- C7: when the `UBR` value is present, `build_number` returns it as-is and
the result does not depend on the `BuildLabEx` fallback string at all. -/
theorem c7_ubr_primary (r : RegistryEnv) (u : Nat)
    (hopen : r.openOk = true) (hubr : r.ubr = some u) :
    build_number r = u ∧
    ∀ bl, build_number { r with buildLabEx := bl } = u := by
  have key : ∀ r2 : RegistryEnv, r2.openOk = true → r2.ubr = some u →
      build_number r2 = u := by
    intro r2 h2 hu2
    rw [build_number, build_number_exec, if_neg (by simp [h2]), hu2]
  exact ⟨key r hopen hubr, fun bl => key { r with buildLabEx := bl } hopen hubr⟩

/-- Witness for C7: `UBR` = 345 yields 345, whatever the fallback string
says. -/
theorem c7_ubr_primary_witness :
    build_number regUbr345 = 345 ∧
    build_number { regUbr345 with buildLabEx := some "19041.7".toList } = 345 :=
  ⟨(c7_ubr_primary regUbr345 345 rfl rfl).1,
   (c7_ubr_primary regUbr345 345 rfl rfl).2 (some "19041.7".toList)⟩

/-- C9: the aggregator is a pure function of the external system state it
reads (kernel version query, registry values, legacy resolver output): two
calls over unchanged state agree in every field of the result. -/
theorem c9_deterministic (e1 e2 : Env) (h : e1 = e2) :
    (OS_info e1).name = (OS_info e2).name ∧
    (OS_info e1).full_name = (OS_info e2).full_name ∧
    (OS_info e1).major_version = (OS_info e2).major_version ∧
    (OS_info e1).minor_version = (OS_info e2).minor_version ∧
    (OS_info e1).build_number = (OS_info e2).build_number ∧
    (OS_info e1).patch_number = (OS_info e2).patch_number := by
  subst h
  exact ⟨rfl, rfl, rfl, rfl, rfl, rfl⟩

/-- Witness for C9 at a concrete system state. -/
theorem c9_deterministic_witness :
    (OS_info envDet).name = (OS_info envDet).name ∧
    (OS_info envDet).full_name = (OS_info envDet).full_name ∧
    (OS_info envDet).major_version = (OS_info envDet).major_version ∧
    (OS_info envDet).minor_version = (OS_info envDet).minor_version ∧
    (OS_info envDet).build_number = (OS_info envDet).build_number ∧
    (OS_info envDet).patch_number = (OS_info envDet).patch_number :=
  c9_deterministic envDet envDet rfl

/-- C3 counterexample: with `RtlGetVersion` unresolvable the three numeric
fields are 0, but the display name comes from the legacy resolver, NOT from
the registry resolver — `0 < 10` routes to the legacy branch, so the claim's
"the registry display-name path is still attempted" is false. -/
theorem c3_counterexample :
    (OS_info envUnresolved).major_version = 0 ∧
    (OS_info envUnresolved).minor_version = 0 ∧
    (OS_info envUnresolved).build_number = 0 ∧
    version_name_reg envUnresolved.reg = "RegName".toList ∧
    (OS_info envUnresolved).full_name = envUnresolved.legacyName ∧
    (OS_info envUnresolved).full_name ≠ version_name_reg envUnresolved.reg := by
  refine ⟨rfl, rfl, rfl, rfl, rfl, ?_⟩
  decide

/-- C3 (amended): if the kernel version-query function cannot be resolved,
`major_version`, `minor_version` and `build_number` are all 0 and the display
name is produced by the legacy resolver (the `0 < 10` routing). -/
theorem c3_unresolved_version_defaults (e : Env) (h : e.rtlGetVersion = none) :
    (OS_info e).major_version = 0 ∧
    (OS_info e).minor_version = 0 ∧
    (OS_info e).build_number = 0 ∧
    (OS_info e).full_name = version_name e := by
  have hv : resolvedVersion e = { dwMajorVersion := 0, dwMinorVersion := 0, dwBuildNumber := 0 } := by
    rw [resolvedVersion, h]
  refine ⟨?_, ?_, ?_, ?_⟩
  · show (resolvedVersion e).dwMajorVersion = 0; rw [hv]
  · show (resolvedVersion e).dwMinorVersion = 0; rw [hv]
  · show (resolvedVersion e).dwBuildNumber = 0; rw [hv]
  · rw [OS_info_full_name, hv, if_pos (by decide)]

/-- Witness for the amended C3 at the concrete unresolved environment. -/
theorem c3_unresolved_version_defaults_witness :
    (OS_info envUnresolved).major_version = 0 ∧
    (OS_info envUnresolved).minor_version = 0 ∧
    (OS_info envUnresolved).build_number = 0 ∧
    (OS_info envUnresolved).full_name = version_name envUnresolved :=
  c3_unresolved_version_defaults envUnresolved rfl

/-- C5: the name resolution routes exclusively on the major version: below
10 the display name is the legacy resolver's output (whatever the registry
holds), from 10 upwards it is the registry resolver's output with the win11
fix applied (whatever the legacy resolver would return). -/
theorem c5_routing (e : Env) :
    ((resolvedVersion e).dwMajorVersion < 10 →
      (OS_info e).full_name = version_name e ∧
      ∀ reg2, (OS_info { e with reg := reg2 }).full_name = version_name e) ∧
    (10 ≤ (resolvedVersion e).dwMajorVersion →
      (OS_info e).full_name = win11Fix (resolvedVersion e) (version_name_reg e.reg) ∧
      ∀ ln, (OS_info { e with legacyName := ln }).full_name =
        win11Fix (resolvedVersion e) (version_name_reg e.reg)) := by
  constructor
  · intro hlt
    constructor
    · rw [OS_info_full_name, if_pos hlt]
    · intro reg2
      have hres : resolvedVersion { e with reg := reg2 } = resolvedVersion e := rfl
      rw [OS_info_full_name, hres, if_pos hlt]
      rfl
  · intro hge
    have hnlt : ¬ (resolvedVersion e).dwMajorVersion < 10 := Nat.not_lt.mpr hge
    constructor
    · rw [OS_info_full_name, if_neg hnlt]
    · intro ln
      have hres : resolvedVersion { e with legacyName := ln } = resolvedVersion e := rfl
      rw [OS_info_full_name, hres, if_neg hnlt]

/-- Witness for C5: major version 6 yields the legacy resolver's string even
though the registry holds a name; major version 10 yields the registry
resolver's string (here unaffected by the win11 fix) even though the legacy
resolver would return something else. -/
theorem c5_routing_witness :
    (OS_info envLegacyRoute).full_name = version_name envLegacyRoute ∧
    (OS_info envRegRoute).full_name =
      win11Fix (resolvedVersion envRegRoute) (version_name_reg envRegRoute.reg) :=
  ⟨((c5_routing envLegacyRoute).1 (by decide)).1,
   ((c5_routing envRegRoute).2 (by decide)).1⟩

/-- C1: in the aggregator, the win11 display-name correction changes the
registry-resolved name exactly when major = 10, minor = 0, build ≥ 22000 and
that name contains `" 10"`; and when it fires, the result is the registry
name with the single character at the found offset plus two overwritten by
`'1'`. -/
theorem c1_display_name_correction (e : Env) (v : KernelVersion)
    (hv : e.rtlGetVersion = some v) (hmaj : 10 ≤ v.dwMajorVersion) :
    ((OS_info e).full_name ≠ version_name_reg e.reg ↔
      (v.dwMajorVersion = 10 ∧ v.dwMinorVersion = 0 ∧ 22000 ≤ v.dwBuildNumber ∧
        (findSub [' ', '1', '0'] (version_name_reg e.reg)).isSome = true)) ∧
    ∀ pos, findSub [' ', '1', '0'] (version_name_reg e.reg) = some pos →
      v.dwMajorVersion = 10 → v.dwMinorVersion = 0 → 22000 ≤ v.dwBuildNumber →
      (OS_info e).full_name = (version_name_reg e.reg).set (pos + 2) '1' := by
  have hres : resolvedVersion e = v := by rw [resolvedVersion, hv]
  have hfull : (OS_info e).full_name = win11Fix v (version_name_reg e.reg) := by
    rw [OS_info_full_name, hres, if_neg (Nat.not_lt.mpr hmaj)]
  by_cases hC : v.dwMajorVersion = 10 ∧ v.dwMinorVersion = 0 ∧ 22000 ≤ v.dwBuildNumber
  · rcases hfind : findSub [' ', '1', '0'] (version_name_reg e.reg) with _ | pos
    · have hfix : win11Fix v (version_name_reg e.reg) = version_name_reg e.reg := by
        rw [win11Fix, if_pos hC, hfind]
      constructor
      · rw [hfull, hfix]
        constructor
        · intro hne
          exact absurd rfl hne
        · rintro ⟨-, -, -, hsome⟩
          simp at hsome
      · intro pos hf
        simp at hf
    · have hfix : win11Fix v (version_name_reg e.reg) =
          (version_name_reg e.reg).set (pos + 2) '1' := by
        rw [win11Fix, if_pos hC, hfind]
      have hchar : (version_name_reg e.reg)[pos + 2]? = some '0' :=
        findSub_win10_char hfind
      have hlt : pos + 2 < (version_name_reg e.reg).length :=
        (List.getElem?_eq_some.mp hchar).1
      have hne : (version_name_reg e.reg).set (pos + 2) '1' ≠ version_name_reg e.reg := by
        intro heq
        have h1 : ((version_name_reg e.reg).set (pos + 2) '1')[pos + 2]? = some '1' :=
          List.getElem?_set_eq_of_lt '1' hlt
        rw [heq, hchar] at h1
        exact (by decide : (some '0' : Option Char) ≠ some '1') h1
      constructor
      · rw [hfull, hfix]
        constructor
        · intro _
          exact ⟨hC.1, hC.2.1, hC.2.2, rfl⟩
        · intro _
          exact hne
      · intro pos2 hf2 _ _ _
        injection hf2 with hp
        subst hp
        rw [hfull, hfix]
  · have hfix : win11Fix v (version_name_reg e.reg) = version_name_reg e.reg := by
      rw [win11Fix, if_neg hC]
    constructor
    · rw [hfull, hfix]
      constructor
      · intro hne2
        exact absurd rfl hne2
      · rintro ⟨h1, h2, h3, -⟩
        exact absurd ⟨h1, h2, h3⟩ hC
    · intro pos hf h1 h2 h3
      exact absurd ⟨h1, h2, h3⟩ hC

/-- Witness for C1 on the spec's examples: name `"Windows 10 Pro"` with
build 22000 becomes `"Windows 11 Pro"` (the `" 10"` match is at offset 7, so
the character at offset 9 is rewritten); with build 19041 it is unchanged. -/
theorem c1_display_name_correction_witness :
    (OS_info (env10pro 22000)).full_name = "Windows 11 Pro".toList ∧
    (OS_info (env10pro 19041)).full_name = "Windows 10 Pro".toList := by
  constructor
  · have h := (c1_display_name_correction (env10pro 22000)
      { dwMajorVersion := 10, dwMinorVersion := 0, dwBuildNumber := 22000 }
      rfl (by decide)).2 7 (by decide) rfl rfl (by decide)
    rw [h]
    decide
  · have h := (c1_display_name_correction (env10pro 19041)
      { dwMajorVersion := 10, dwMinorVersion := 0, dwBuildNumber := 19041 }
      rfl (by decide)).1
    have heq : (OS_info (env10pro 19041)).full_name =
        version_name_reg (env10pro 19041).reg :=
      not_not.mp (fun hne => absurd (h.mp hne) (by decide))
    rw [heq]
    decide

/-- C4: on every exit path of the WMI resolver, each resource acquired
before that exit (COM, locator, service connection, query iterator,
per-record object, variant box) is released before the function returns:
every run's trace has equally many acquisitions and releases of each
resource. -/
theorem c4_wmi_resource_balance (w : WmiEnv) (r : Res) :
    acqCount (version_name_wmi_exec w).2 r = relCount (version_name_wmi_exec w).2 r := by
  by_cases h1 : w.comInitOk = false
  · rw [version_name_wmi_exec, if_pos h1]
    rfl
  · rw [version_name_wmi_exec, if_neg h1]
    by_cases h2 : w.secOk = false
    · rw [if_pos h2]
      cases r <;> rfl
    · rw [if_neg h2]
      by_cases h3 : w.locOk = false
      · rw [if_pos h3]
        cases r <;> rfl
      · rw [if_neg h3]
        by_cases h4 : w.connectOk = false
        · rw [if_pos h4]
          cases r <;> rfl
        · rw [if_neg h4]
          by_cases h5 : w.proxyOk = false
          · rw [if_pos h5]
            cases r <;> rfl
          · rw [if_neg h5]
            by_cases h6 : w.execOk = false
            · rw [if_pos h6]
              cases r <;> rfl
            · rw [if_neg h6]
              show acqCount
                  ([Ev.acq Res.com, Ev.acq Res.locator, Ev.acq Res.services,
                    Ev.acq Res.iterator] ++ (wmiLoop w.records []).2 ++
                   [Ev.rel Res.iterator, Ev.rel Res.services,
                    Ev.rel Res.locator, Ev.rel Res.com]) r =
                relCount
                  ([Ev.acq Res.com, Ev.acq Res.locator, Ev.acq Res.services,
                    Ev.acq Res.iterator] ++ (wmiLoop w.records []).2 ++
                   [Ev.rel Res.iterator, Ev.rel Res.services,
                    Ev.rel Res.locator, Ev.rel Res.com]) r
              rw [acqCount_append, acqCount_append, relCount_append, relCount_append,
                  wmiLoop_balanced]
              generalize relCount (wmiLoop w.records []).2 r = x
              cases r
              · show 1 + x + 0 = 0 + x + 1
                omega
              · show 1 + x + 0 = 0 + x + 1
                omega
              · show 1 + x + 0 = 0 + x + 1
                omega
              · show 1 + x + 0 = 0 + x + 1
                omega
              · show 0 + x + 0 = 0 + x + 0
                omega
              · show 0 + x + 0 = 0 + x + 0
                omega

/-- C8: when every step of the WMI resolver succeeds and the last drained
record is `s`, the result is `s` truncated at the first `'|'` when one
occurs, and `s` unmodified otherwise. -/
theorem c8_wmi_separator (w : WmiEnv) (s : List Char)
    (h1 : w.comInitOk = true) (h2 : w.secOk = true) (h3 : w.locOk = true)
    (h4 : w.connectOk = true) (h5 : w.proxyOk = true) (h6 : w.execOk = true)
    (hlast : w.records.getLast? = some s) :
    (∀ i, findChar '|' s = some i → version_name_wmi w = s.take i) ∧
    (findChar '|' s = none → version_name_wmi w = s) := by
  have hret : (wmiLoop w.records []).1 = s := by
    rw [wmiLoop_fst, hlast]
    rfl
  have hrun : version_name_wmi w = wmiTruncate s := by
    rw [version_name_wmi, version_name_wmi_exec,
        if_neg (by simp [h1]), if_neg (by simp [h2]), if_neg (by simp [h3]),
        if_neg (by simp [h4]), if_neg (by simp [h5]), if_neg (by simp [h6])]
    show wmiTruncate (wmiLoop w.records []).1 = wmiTruncate s
    rw [hret]
  constructor
  · intro i hfi
    rw [hrun, wmiTruncate, hfi]
  · intro hnone
    rw [hrun, wmiTruncate, hnone]

/-- Witness for C8 on the spec's example: the server name with two qualifier
fields after `'|'` separators is truncated to its first field, and a name
with no separator comes back unmodified. -/
theorem c8_wmi_separator_witness :
    version_name_wmi wmiSepExample = "Microsoft Windows Server 2019 Standard".toList ∧
    version_name_wmi wmiNoSep = "Windows 10 Home".toList := by
  constructor
  · have h := (c8_wmi_separator wmiSepExample
      "Microsoft Windows Server 2019 Standard|C:\\Windows|\\Device\\Harddisk0".toList
      rfl rfl rfl rfl rfl rfl rfl).1 38 (by decide)
    rw [h]
    decide
  · have h := (c8_wmi_separator wmiNoSep "Windows 10 Home".toList
      rfl rfl rfl rfl rfl rfl rfl).2 (by decide)
    rw [h]

/-- C10: when `ProductName` is stored with a trailing NUL, the registry
resolver returns a string of exactly the reported size — the stored bytes
including the trailing NUL — and the aggregator's `full_name` (registry
branch) keeps that NUL as its last character, whether or not the win11 fix
fires. -/
theorem c10_trailing_nul (e : Env) (data : List Char)
    (hopen : e.reg.openOk = true)
    (hname : e.reg.productName = some (data ++ [nulChar]))
    (hmaj : 10 ≤ (resolvedVersion e).dwMajorVersion) :
    version_name_reg e.reg = data ++ [nulChar] ∧
    (version_name_reg e.reg).length = data.length + 1 ∧
    (OS_info e).full_name.length = data.length + 1 ∧
    (OS_info e).full_name.getLast? = some nulChar := by
  have hreg : version_name_reg e.reg = data ++ [nulChar] := by
    rw [version_name_reg, if_neg (by simp [hopen]), hname]
  have hfull : (OS_info e).full_name =
      win11Fix (resolvedVersion e) (data ++ [nulChar]) := by
    rw [OS_info_full_name, if_neg (Nat.not_lt.mpr hmaj), hreg]
  have hkey : (win11Fix (resolvedVersion e) (data ++ [nulChar])).length = data.length + 1 ∧
      (win11Fix (resolvedVersion e) (data ++ [nulChar])).getLast? = some nulChar := by
    rw [win11Fix]
    split
    · rcases hfind : findSub [' ', '1', '0'] (data ++ [nulChar]) with _ | pos
      · constructor
        · show (data ++ [nulChar]).length = data.length + 1
          simp
        · exact List.getLast?_concat data
      · show ((data ++ [nulChar]).set (pos + 2) '1').length = data.length + 1 ∧
          ((data ++ [nulChar]).set (pos + 2) '1').getLast? = some nulChar
        have hchar : (data ++ [nulChar])[pos + 2]? = some '0' :=
          findSub_win10_char hfind
        have hlen : (data ++ [nulChar]).length = data.length + 1 := by simp
        have hne2 : pos + 2 ≠ data.length := by
          intro hEq
          have hcat : (data ++ [nulChar])[data.length]? = some nulChar :=
            List.getElem?_concat_length data nulChar
          rw [← hEq, hchar] at hcat
          exact (by decide : (some '0' : Option Char) ≠ some nulChar) hcat
        constructor
        · rw [List.length_set, hlen]
        · rw [List.getLast?_eq_getElem?, List.length_set, hlen, Nat.add_sub_cancel,
              List.getElem?_set_ne hne2]
          exact List.getElem?_concat_length data nulChar
    · constructor
      · simp
      · exact List.getLast?_concat data
  refine ⟨hreg, by rw [hreg]; simp, ?_, ?_⟩
  · rw [hfull]
    exact hkey.1
  · rw [hfull]
    exact hkey.2

/-- Witness for C10: the name `"Windows 10 Pro"` stored with its NUL
terminator under version 10.0.22000 (the fix fires on it) still yields a
`full_name` of the full reported size ending in the NUL byte. -/
theorem c10_trailing_nul_witness :
    version_name_reg envNulName.reg = "Windows 10 Pro".toList ++ [nulChar] ∧
    (version_name_reg envNulName.reg).length = "Windows 10 Pro".toList.length + 1 ∧
    (OS_info envNulName).full_name.length = "Windows 10 Pro".toList.length + 1 ∧
    (OS_info envNulName).full_name.getLast? = some nulChar :=
  c10_trailing_nul envNulName "Windows 10 Pro".toList rfl rfl (by decide)

end Infoware
